import Mathlib

/-!
# Verification of the garage-door controller core

Shallow embedding of `garage_controller.py` (class `GarageDoorController`).

Modelling conventions:

* GPIO pin levels are `Bool` (`true` = electrical HIGH, `false` = LOW);
  the raw sensor inputs are a function `pins : Nat → Bool` giving the
  level currently present on each GPIO line (`_gpio_read`).
* Side effects (`_gpio_write`, `time.sleep`, callback invocation,
  `threading.Timer(...).start()`) are recorded in order in a trace of
  `Event`s; durations and delays are rationals in seconds.
* A Python exception escaping a method is modelled by the `err` field of
  the result (`some e`); execution stops at the raising statement, so
  later effects are absent from the trace, exactly as in Python where an
  uncaught exception aborts the rest of the method body.
* The status-callback registry `self.status_callbacks` (a dict with at
  most the keys 1 and 2 relevant to any reachable call) is modelled by
  two optional callback functions; a callback returns `Except Unit Unit`,
  `.error ()` modelling the callback raising an exception.
* GPIO write / sleep failures inside the relay pulse of `trigger_door`
  (lines 158-161) are modelled by a fault-injection parameter
  `PulseFault`: `.ok` is the fault-free run, the other constructors name
  the first statement of the pulse that raises.  The Python code has no
  try/finally around the pulse, so once a statement raises the remaining
  statements do not execute.
-/

/-- `DoorStatus` enum of `garage_controller.py` (lines 28-33). -/
inductive DoorStatus
  | OPEN
  | CLOSED
  | OPENING
  | CLOSING
  | UNKNOWN
deriving DecidableEq

/-- The per-door mutable state `self.door_states` (dict with keys 1 and 2,
both initialised to `UNKNOWN` in `__init__`). -/
structure ControllerState where
  door1 : DoorStatus
  door2 : DoorStatus
deriving DecidableEq

/-- `self.door_states[door_id]` for the door ids 1 and 2 that reach it. -/
def door_states (s : ControllerState) (door_id : Nat) : DoorStatus :=
  if door_id = 1 then s.door1 else s.door2

/-- `self.door_states[door_id] = st` for the door ids 1 and 2 that reach it. -/
def set_door_state (s : ControllerState) (door_id : Nat) (st : DoorStatus) :
    ControllerState :=
  if door_id = 1 then ⟨st, s.door2⟩ else ⟨s.door1, st⟩

/-- The pin assignment made in `__init__` (lines 41-44).  Kept as a record so
that theorems also cover deployments where both doors share one sensor pin
(spec §4.2 edge case): nothing below assumes the four pins are distinct. -/
structure PinConfig where
  DOOR1_RELAY : Nat
  DOOR2_RELAY : Nat
  DOOR1_SENSOR : Nat
  DOOR2_SENSOR : Nat
deriving DecidableEq

/-- The concrete pin numbers of `__init__`: relays 9 and 12, sensors 11 and 4. -/
def defaultPins : PinConfig := ⟨9, 12, 11, 4⟩

/-- `_get_sensor_pin` (line 97). -/
def get_sensor_pin (cfg : PinConfig) (door_id : Nat) : Nat :=
  if door_id = 1 then cfg.DOOR1_SENSOR else cfg.DOOR2_SENSOR

/-- `_get_relay_pin` (line 101). -/
def get_relay_pin (cfg : PinConfig) (door_id : Nat) : Nat :=
  if door_id = 1 then cfg.DOOR1_RELAY else cfg.DOOR2_RELAY

/-- `_read_sensor` (lines 117-122): read the sensor pin and invert,
`True` = open, `False` = closed ("Sensors are HIGH when door is closed"). -/
def read_sensor (cfg : PinConfig) (pins : Nat → Bool) (door_id : Nat) : Bool :=
  ! pins (get_sensor_pin cfg door_id)

/-- A registered status callback: called with `(door_id, status)`;
`.error ()` models the callback raising an exception. -/
def Callback := Nat → DoorStatus → Except Unit Unit

/-- `self.status_callbacks` restricted to the keys 1 and 2 (the only keys any
reachable invocation site can look up). -/
structure Callbacks where
  cb1 : Option Callback
  cb2 : Option Callback

/-- Lookup `self.status_callbacks.get(door_id)`. -/
def get_callback (cbs : Callbacks) (door_id : Nat) : Option Callback :=
  if door_id = 1 then cbs.cb1 else if door_id = 2 then cbs.cb2 else none

/-- Exceptions escaping a controller method. -/
inductive Err
  | valueError
  | ioError
  | callbackError
deriving DecidableEq

/-- One observable side effect, in program order. -/
inductive Event
  | callbackInvoked (door_id : Nat) (status : DoorStatus)
  | pinWrite (pin : Nat) (level : Bool)
  | sleepFor (duration : ℚ)
  | timerScheduled (delay : ℚ) (door_id : Nat)
deriving DecidableEq

/-- Result of running one controller method: the door-state table after it,
the trace of effects it performed, and the exception it raised, if any. -/
structure OpResult where
  state : ControllerState
  events : List Event
  err : Option Err
deriving DecidableEq

/-- The `if door_id in self.status_callbacks: self.status_callbacks[door_id](door_id, st)`
statement, which appears verbatim at lines 131-132 (`_update_door_status`) and
lines 155-156 (`trigger_door`): invoke the registered callback (if any) with
`(door_id, st)`.  The call is not guarded, so a callback exception escapes. -/
def notify_step (cbs : Callbacks) (door_id : Nat) (st : DoorStatus) :
    List Event × Option Err :=
  match get_callback cbs door_id with
  | some cb =>
      match cb door_id st with
      | .ok _ => ([.callbackInvoked door_id st], none)
      | .error _ => ([.callbackInvoked door_id st], some .callbackError)
  | none => ([], none)

/-- `_update_door_status` (lines 124-132): read the sensor, compute
`OPEN`/`CLOSED`, and when the status changed store it and invoke the
registered callback (if any) with the new status (`notify_step`).  The
callback call is not guarded, so a callback exception escapes after the
store. -/
def update_door_status (cfg : PinConfig) (cbs : Callbacks) (pins : Nat → Bool)
    (s : ControllerState) (door_id : Nat) : OpResult :=
  let is_open := read_sensor cfg pins door_id
  let new_status := if is_open then DoorStatus.OPEN else DoorStatus.CLOSED
  if door_states s door_id ≠ new_status then
    let s' := set_door_state s door_id new_status
    let n := notify_step cbs door_id new_status
    ⟨s', n.1, n.2⟩
  else ⟨s, [], none⟩

/-- Lines 149-153 of `trigger_door`: the optimistic status write
(`CLOSED` ↦ `OPENING`, `OPEN` ↦ `CLOSING`, anything else untouched). -/
def optimistic_state (s : ControllerState) (door_id : Nat) : ControllerState :=
  if door_states s door_id = DoorStatus.CLOSED then
    set_door_state s door_id DoorStatus.OPENING
  else if door_states s door_id = DoorStatus.OPEN then
    set_door_state s door_id DoorStatus.CLOSING
  else s

/-- Which statement of the relay pulse (lines 158-161) raises an I/O error,
if any.  `.ok` is the fault-free execution. -/
inductive PulseFault
  | ok
  | activeWrite
  | sleepStep
  | idleWrite
deriving DecidableEq

/-- Lines 158-161 of `trigger_door`: write LOW (relay active), sleep for
`duration`, write HIGH (relay idle).  There is no try/finally, so the first
raising statement aborts the pulse and the trace records only the effects
that happened before it. -/
def relay_pulse (fault : PulseFault) (relay_pin : Nat) (duration : ℚ) :
    List Event × Option Err :=
  match fault with
  | .ok => ([.pinWrite relay_pin false, .sleepFor duration, .pinWrite relay_pin true], none)
  | .activeWrite => ([], some .ioError)
  | .sleepStep => ([.pinWrite relay_pin false], some .ioError)
  | .idleWrite => ([.pinWrite relay_pin false, .sleepFor duration], some .ioError)

/-- `trigger_door` (lines 141-169): validate the id, make the optimistic
status write, notify, pulse the relay, then schedule the deferred
`_update_door_status(door_id)` via `threading.Timer` — 15 s when the status
read at entry was `OPEN`, 2 s otherwise. -/
def trigger_door (cfg : PinConfig) (cbs : Callbacks) (s : ControllerState)
    (door_id : Nat) (duration : ℚ) (fault : PulseFault) : OpResult :=
  if ¬(door_id = 1 ∨ door_id = 2) then ⟨s, [], some .valueError⟩
  else
    let relay_pin := get_relay_pin cfg door_id
    let current_status := door_states s door_id
    let s' := optimistic_state s door_id
    match notify_step cbs door_id (door_states s' door_id) with
    | (evs, some e) => ⟨s', evs, some e⟩
    | (evs, none) =>
        match relay_pulse fault relay_pin duration with
        | (pevs, some e) => ⟨s', evs ++ pevs, some e⟩
        | (pevs, none) =>
            ⟨s', evs ++ pevs ++
              [.timerScheduled (if current_status = DoorStatus.OPEN then (15 : ℚ) else 2) door_id],
              none⟩

/-- `get_door_status` (lines 171-175). -/
def get_door_status (s : ControllerState) (door_id : Nat) : Except Err DoorStatus :=
  if ¬(door_id = 1 ∨ door_id = 2) then .error .valueError
  else .ok (door_states s door_id)

/-- The level an event writes to `pin`, if it is a write to that pin. -/
def relay_write_of (pin : Nat) : Event → Option Bool
  | .pinWrite p l => if p = pin then some l else none
  | _ => none

/-- The level `trigger_door` last wrote to `pin`, according to the trace. -/
def last_relay_level (pin : Nat) (evs : List Event) : Option Bool :=
  (evs.filterMap (relay_write_of pin)).getLast?

/-- Extract the deferred-re-poll events from a trace. -/
def timers_of (evs : List Event) : List (ℚ × Nat) :=
  evs.filterMap fun e =>
    match e with
    | .timerScheduled delay d => some (delay, d)
    | _ => none

/-- A callback that never raises (used in concrete instantiations). -/
def cbOk : Callback := fun _ _ => .ok ()

/-- A callback that always raises (used in concrete instantiations). -/
def cbRaise : Callback := fun _ _ => .error ()

/-! ## Basic lemmas about the state table -/

lemma door_states_set_same (s : ControllerState) (d : Nat) (st : DoorStatus) :
    door_states (set_door_state s d st) d = st := by
  by_cases hd : d = 1 <;> simp [door_states, set_door_state, hd]

lemma set_door_state_self (s : ControllerState) (d : Nat) (st : DoorStatus)
    (h : door_states s d = st) : set_door_state s d st = s := by
  unfold set_door_state
  unfold door_states at h
  by_cases hd : d = 1
  · rw [if_pos hd] at h ⊢; rw [← h]
  · rw [if_neg hd] at h ⊢; rw [← h]

/-! ## Shape lemmas for `_update_door_status` -/

/-- What lines 126-127 compute: the status dictated by the raw sensor value. -/
lemma sensor_polarity (cfg : PinConfig) (pins : Nat → Bool) (d : Nat) :
    (if read_sensor cfg pins d then DoorStatus.OPEN else DoorStatus.CLOSED) =
      (if pins (get_sensor_pin cfg d) then DoorStatus.CLOSED else DoorStatus.OPEN) := by
  unfold read_sensor
  cases pins (get_sensor_pin cfg d) <;> simp

lemma update_state_eq (cfg : PinConfig) (cbs : Callbacks) (pins : Nat → Bool)
    (s : ControllerState) (d : Nat) :
    (update_door_status cfg cbs pins s d).state =
      set_door_state s d
        (if pins (get_sensor_pin cfg d) then DoorStatus.CLOSED else DoorStatus.OPEN) := by
  simp only [update_door_status]
  rw [sensor_polarity]
  by_cases h : door_states s d = (if pins (get_sensor_pin cfg d) then DoorStatus.CLOSED else DoorStatus.OPEN)
  · rw [if_neg (not_not_intro h)]
    exact (set_door_state_self _ _ _ h).symm
  · rw [if_pos h]

lemma update_eq_unchanged (cfg : PinConfig) (cbs : Callbacks) (pins : Nat → Bool)
    (s : ControllerState) (d : Nat)
    (h : door_states s d = (if pins (get_sensor_pin cfg d) then DoorStatus.CLOSED else DoorStatus.OPEN)) :
    update_door_status cfg cbs pins s d = ⟨s, [], none⟩ := by
  simp only [update_door_status]
  rw [sensor_polarity, if_neg (not_not_intro h)]

lemma update_eq_changed (cfg : PinConfig) (cbs : Callbacks) (pins : Nat → Bool)
    (s : ControllerState) (d : Nat)
    (h : door_states s d ≠ (if pins (get_sensor_pin cfg d) then DoorStatus.CLOSED else DoorStatus.OPEN)) :
    update_door_status cfg cbs pins s d =
      ⟨set_door_state s d (if pins (get_sensor_pin cfg d) then DoorStatus.CLOSED else DoorStatus.OPEN),
       (notify_step cbs d (if pins (get_sensor_pin cfg d) then DoorStatus.CLOSED else DoorStatus.OPEN)).1,
       (notify_step cbs d (if pins (get_sensor_pin cfg d) then DoorStatus.CLOSED else DoorStatus.OPEN)).2⟩ := by
  simp only [update_door_status]
  rw [sensor_polarity, if_pos h]

/-! ## Shape lemmas for `notify_step` and `trigger_door` -/

lemma notify_step_unregistered (cbs : Callbacks) (d : Nat) (st : DoorStatus)
    (h : get_callback cbs d = none) : notify_step cbs d st = ([], none) := by
  simp only [notify_step, h]

lemma notify_step_ok (cbs : Callbacks) (d : Nat) (st : DoorStatus) (cb : Callback)
    (h : get_callback cbs d = some cb) (hok : cb d st = Except.ok ()) :
    notify_step cbs d st = ([Event.callbackInvoked d st], none) := by
  simp only [notify_step, h, hok]

lemma notify_step_raises (cbs : Callbacks) (d : Nat) (st : DoorStatus) (cb : Callback)
    (h : get_callback cbs d = some cb) (hr : cb d st = Except.error ()) :
    notify_step cbs d st = ([Event.callbackInvoked d st], some Err.callbackError) := by
  simp only [notify_step, h, hr]

lemma trigger_run_notify_err (cfg : PinConfig) (cbs : Callbacks) (s : ControllerState)
    (d : Nat) (duration : ℚ) (fault : PulseFault) (evs : List Event) (e : Err)
    (hd : d = 1 ∨ d = 2)
    (hn : notify_step cbs d (door_states (optimistic_state s d) d) = (evs, some e)) :
    trigger_door cfg cbs s d duration fault = ⟨optimistic_state s d, evs, some e⟩ := by
  simp only [trigger_door]
  rw [if_neg (not_not_intro hd), hn]

lemma trigger_run_pulse (cfg : PinConfig) (cbs : Callbacks) (s : ControllerState)
    (d : Nat) (duration : ℚ) (fault : PulseFault) (evs pevs : List Event) (e : Err)
    (hd : d = 1 ∨ d = 2)
    (hn : notify_step cbs d (door_states (optimistic_state s d) d) = (evs, none))
    (hp : relay_pulse fault (get_relay_pin cfg d) duration = (pevs, some e)) :
    trigger_door cfg cbs s d duration fault = ⟨optimistic_state s d, evs ++ pevs, some e⟩ := by
  simp only [trigger_door]
  rw [if_neg (not_not_intro hd), hn, hp]

lemma trigger_run_ok (cfg : PinConfig) (cbs : Callbacks) (s : ControllerState)
    (d : Nat) (duration : ℚ) (fault : PulseFault) (evs pevs : List Event)
    (hd : d = 1 ∨ d = 2)
    (hn : notify_step cbs d (door_states (optimistic_state s d) d) = (evs, none))
    (hp : relay_pulse fault (get_relay_pin cfg d) duration = (pevs, none)) :
    trigger_door cfg cbs s d duration fault =
      ⟨optimistic_state s d, evs ++ pevs ++
        [.timerScheduled (if door_states s d = DoorStatus.OPEN then (15 : ℚ) else 2) d],
       none⟩ := by
  simp only [trigger_door]
  rw [if_neg (not_not_intro hd), hn, hp]

lemma trigger_state_eq (cfg : PinConfig) (cbs : Callbacks) (s : ControllerState)
    (d : Nat) (duration : ℚ) (fault : PulseFault) (hd : d = 1 ∨ d = 2) :
    (trigger_door cfg cbs s d duration fault).state = optimistic_state s d := by
  rcases hn : notify_step cbs d (door_states (optimistic_state s d) d) with ⟨evs, oe⟩
  cases oe with
  | some e => rw [trigger_run_notify_err cfg cbs s d duration fault evs e hd hn]
  | none =>
      rcases hp : relay_pulse fault (get_relay_pin cfg d) duration with ⟨pevs, op⟩
      cases op with
      | some e => rw [trigger_run_pulse cfg cbs s d duration fault evs pevs e hd hn hp]
      | none => rw [trigger_run_ok cfg cbs s d duration fault evs pevs hd hn hp]

lemma optimistic_door_state (s : ControllerState) (d : Nat) :
    door_states (optimistic_state s d) d =
      (if door_states s d = DoorStatus.CLOSED then DoorStatus.OPENING
       else if door_states s d = DoorStatus.OPEN then DoorStatus.CLOSING
       else door_states s d) := by
  unfold optimistic_state
  by_cases h1 : door_states s d = DoorStatus.CLOSED
  · rw [if_pos h1, if_pos h1, door_states_set_same]
  · rw [if_neg h1, if_neg h1]
    by_cases h2 : door_states s d = DoorStatus.OPEN
    · rw [if_pos h2, if_pos h2, door_states_set_same]
    · rw [if_neg h2, if_neg h2]

/-! ## Claim theorems -/

/-- C1: for every door and raw sensor reading, `_read_sensor` returns the
negation of the raw electrical value, and `_update_door_status` resolves the
door to `CLOSED` when the pin reads HIGH and to `OPEN` when it reads LOW —
in particular the resolved status is never `OPEN` while the raw value is
HIGH. -/
theorem C1_sensor_polarity_inversion (cfg : PinConfig) (cbs : Callbacks)
    (pins : Nat → Bool) (s : ControllerState) (door_id : Nat)
    (hd : door_id = 1 ∨ door_id = 2) :
    read_sensor cfg pins door_id = ! pins (get_sensor_pin cfg door_id) ∧
    door_states (update_door_status cfg cbs pins s door_id).state door_id =
      (if pins (get_sensor_pin cfg door_id) then DoorStatus.CLOSED else DoorStatus.OPEN) := by
  refine ⟨rfl, ?_⟩
  rw [update_state_eq, door_states_set_same]

/-- Witness for C1 at door 1 with the sensor pin reading HIGH. -/
theorem C1_witness :
    read_sensor defaultPins (fun _ => true) 1 = false ∧
    door_states (update_door_status defaultPins ⟨none, none⟩ (fun _ => true)
        ⟨DoorStatus.UNKNOWN, DoorStatus.UNKNOWN⟩ 1).state 1 = DoorStatus.CLOSED :=
  C1_sensor_polarity_inversion defaultPins ⟨none, none⟩ (fun _ => true)
    ⟨DoorStatus.UNKNOWN, DoorStatus.UNKNOWN⟩ 1 (Or.inl rfl)

/-- C6: sensor polling alone never produces a transitional state: after
`_update_door_status` the polled door is `OPEN` or `CLOSED` (never `OPENING`,
`CLOSING` or `UNKNOWN`) and the other door is untouched; and `trigger_door`
is the operation that assigns `OPENING` (exactly from `CLOSED`) and `CLOSING`
(exactly from `OPEN`), leaving any other status as it was. -/
theorem C6_polling_never_transitional (cfg : PinConfig) (cbs : Callbacks)
    (pins : Nat → Bool) (s : ControllerState) (door_id : Nat) (duration : ℚ)
    (fault : PulseFault) (hd : door_id = 1 ∨ door_id = 2) :
    (door_states (update_door_status cfg cbs pins s door_id).state door_id = DoorStatus.OPEN ∨
     door_states (update_door_status cfg cbs pins s door_id).state door_id = DoorStatus.CLOSED) ∧
    door_states (update_door_status cfg cbs pins s door_id).state (if door_id = 1 then 2 else 1) =
      door_states s (if door_id = 1 then 2 else 1) ∧
    door_states (trigger_door cfg cbs s door_id duration fault).state door_id =
      (if door_states s door_id = DoorStatus.CLOSED then DoorStatus.OPENING
       else if door_states s door_id = DoorStatus.OPEN then DoorStatus.CLOSING
       else door_states s door_id) := by
  refine ⟨?_, ?_, ?_⟩
  · rw [update_state_eq, door_states_set_same]
    cases pins (get_sensor_pin cfg door_id) <;> simp
  · rw [update_state_eq]
    rcases hd with rfl | rfl <;> simp [door_states, set_door_state]
  · rw [trigger_state_eq cfg cbs s door_id duration fault hd, optimistic_door_state]

/-- Witness for C6 at door 1, sensor HIGH, both doors `UNKNOWN`. -/
theorem C6_witness :
    (door_states (update_door_status defaultPins ⟨none, none⟩ (fun _ => true)
        ⟨DoorStatus.UNKNOWN, DoorStatus.UNKNOWN⟩ 1).state 1 = DoorStatus.OPEN ∨
     door_states (update_door_status defaultPins ⟨none, none⟩ (fun _ => true)
        ⟨DoorStatus.UNKNOWN, DoorStatus.UNKNOWN⟩ 1).state 1 = DoorStatus.CLOSED) ∧
    door_states (update_door_status defaultPins ⟨none, none⟩ (fun _ => true)
        ⟨DoorStatus.UNKNOWN, DoorStatus.UNKNOWN⟩ 1).state 2 = DoorStatus.UNKNOWN ∧
    door_states (trigger_door defaultPins ⟨none, none⟩
        ⟨DoorStatus.UNKNOWN, DoorStatus.UNKNOWN⟩ 1 (1/2) PulseFault.ok).state 1 =
      DoorStatus.UNKNOWN :=
  C6_polling_never_transitional defaultPins ⟨none, none⟩ (fun _ => true)
    ⟨DoorStatus.UNKNOWN, DoorStatus.UNKNOWN⟩ 1 (1/2) PulseFault.ok (Or.inl rfl)

/-- C7: for a door id outside {1, 2}, `get_door_status` and `trigger_door`
both fail with `ValueError`, and the failing `trigger_door` call returns the
door-state table unchanged with an empty effect trace (no status mutation,
no pin write, no callback, no timer). -/
theorem C7_invalid_door_id (cfg : PinConfig) (cbs : Callbacks) (s : ControllerState)
    (door_id : Nat) (duration : ℚ) (fault : PulseFault)
    (hd : ¬(door_id = 1 ∨ door_id = 2)) :
    get_door_status s door_id = Except.error Err.valueError ∧
    trigger_door cfg cbs s door_id duration fault = ⟨s, [], some Err.valueError⟩ := by
  constructor
  · unfold get_door_status
    rw [if_pos hd]
  · unfold trigger_door
    rw [if_pos hd]

/-- Witness for C7 at door id 3. -/
theorem C7_witness :
    get_door_status ⟨DoorStatus.OPEN, DoorStatus.CLOSED⟩ 3 = Except.error Err.valueError ∧
    trigger_door defaultPins ⟨none, none⟩ ⟨DoorStatus.OPEN, DoorStatus.CLOSED⟩ 3 (1/2)
        PulseFault.ok =
      ⟨⟨DoorStatus.OPEN, DoorStatus.CLOSED⟩, [], some Err.valueError⟩ :=
  C7_invalid_door_id defaultPins ⟨none, none⟩ ⟨DoorStatus.OPEN, DoorStatus.CLOSED⟩ 3 (1/2)
    PulseFault.ok (by decide)

/-- Does a trace element record a status-callback invocation? -/
def is_callback_event : Event → Bool
  | .callbackInvoked _ _ => true
  | _ => false

lemma pulse_no_callback_events (fault : PulseFault) (pin : Nat) (duration : ℚ) :
    (relay_pulse fault pin duration).1.countP is_callback_event = 0 := by
  cases fault <;> rfl

lemma optimistic_state_closed (s : ControllerState) (d : Nat)
    (h : door_states s d = DoorStatus.CLOSED) :
    optimistic_state s d = set_door_state s d DoorStatus.OPENING := by
  unfold optimistic_state
  rw [if_pos h]

lemma optimistic_state_open (s : ControllerState) (d : Nat)
    (h : door_states s d = DoorStatus.OPEN) :
    optimistic_state s d = set_door_state s d DoorStatus.CLOSING := by
  unfold optimistic_state
  rw [if_neg (by simp [h]), if_pos h]

lemma optimistic_state_frozen (s : ControllerState) (d : Nat)
    (h1 : door_states s d ≠ DoorStatus.OPEN) (h2 : door_states s d ≠ DoorStatus.CLOSED) :
    optimistic_state s d = s := by
  unfold optimistic_state
  rw [if_neg h2, if_neg h1]

/-- C2: `trigger_door` on a `CLOSED` door stores `OPENING` and invokes the
registered observer with `(door_id, OPENING)` synchronously before the relay
pulse is driven (the callback event precedes every pin write in the trace);
symmetrically an `OPEN` door yields `(door_id, CLOSING)` before the pulse.
The full result (state, ordered trace, no error) is given in both cases. -/
theorem C2_trigger_notifies_before_pulse (cfg : PinConfig) (cbs : Callbacks)
    (s : ControllerState) (door_id : Nat) (duration : ℚ) (cb : Callback)
    (hd : door_id = 1 ∨ door_id = 2) (hcb : get_callback cbs door_id = some cb) :
    (door_states s door_id = DoorStatus.CLOSED →
       cb door_id DoorStatus.OPENING = Except.ok () →
       trigger_door cfg cbs s door_id duration PulseFault.ok =
         ⟨set_door_state s door_id DoorStatus.OPENING,
          [Event.callbackInvoked door_id DoorStatus.OPENING,
           Event.pinWrite (get_relay_pin cfg door_id) false,
           Event.sleepFor duration,
           Event.pinWrite (get_relay_pin cfg door_id) true,
           Event.timerScheduled 2 door_id], none⟩) ∧
    (door_states s door_id = DoorStatus.OPEN →
       cb door_id DoorStatus.CLOSING = Except.ok () →
       trigger_door cfg cbs s door_id duration PulseFault.ok =
         ⟨set_door_state s door_id DoorStatus.CLOSING,
          [Event.callbackInvoked door_id DoorStatus.CLOSING,
           Event.pinWrite (get_relay_pin cfg door_id) false,
           Event.sleepFor duration,
           Event.pinWrite (get_relay_pin cfg door_id) true,
           Event.timerScheduled 15 door_id], none⟩) := by
  constructor
  · intro h1 hok
    have hopt := optimistic_state_closed s door_id h1
    have hn : notify_step cbs door_id (door_states (optimistic_state s door_id) door_id) =
        ([Event.callbackInvoked door_id DoorStatus.OPENING], none) := by
      rw [hopt, door_states_set_same]
      exact notify_step_ok cbs door_id DoorStatus.OPENING cb hcb hok
    have hrun := trigger_run_ok cfg cbs s door_id duration PulseFault.ok
      [Event.callbackInvoked door_id DoorStatus.OPENING]
      [Event.pinWrite (get_relay_pin cfg door_id) false, Event.sleepFor duration,
       Event.pinWrite (get_relay_pin cfg door_id) true] hd hn rfl
    rw [hrun, hopt, h1]
    rfl
  · intro h1 hok
    have hopt := optimistic_state_open s door_id h1
    have hn : notify_step cbs door_id (door_states (optimistic_state s door_id) door_id) =
        ([Event.callbackInvoked door_id DoorStatus.CLOSING], none) := by
      rw [hopt, door_states_set_same]
      exact notify_step_ok cbs door_id DoorStatus.CLOSING cb hcb hok
    have hrun := trigger_run_ok cfg cbs s door_id duration PulseFault.ok
      [Event.callbackInvoked door_id DoorStatus.CLOSING]
      [Event.pinWrite (get_relay_pin cfg door_id) false, Event.sleepFor duration,
       Event.pinWrite (get_relay_pin cfg door_id) true] hd hn rfl
    rw [hrun, hopt, h1]
    rfl

/-- Witness for C2: door 1 `CLOSED`, observer registered, fault-free pulse. -/
theorem C2_witness :
    trigger_door defaultPins ⟨some cbOk, none⟩ ⟨DoorStatus.CLOSED, DoorStatus.UNKNOWN⟩ 1
        (1/2) PulseFault.ok =
      ⟨⟨DoorStatus.OPENING, DoorStatus.UNKNOWN⟩,
       [Event.callbackInvoked 1 DoorStatus.OPENING, Event.pinWrite 9 false,
        Event.sleepFor (1/2), Event.pinWrite 9 true, Event.timerScheduled 2 1], none⟩ :=
  (C2_trigger_notifies_before_pulse defaultPins ⟨some cbOk, none⟩
      ⟨DoorStatus.CLOSED, DoorStatus.UNKNOWN⟩ 1 (1/2) cbOk (Or.inl rfl) rfl).1 rfl rfl

/-- C10: on a valid door whose status is neither `OPEN` nor `CLOSED`
(`UNKNOWN`, `OPENING` or `CLOSING`), `trigger_door` leaves the whole
door-state table unchanged yet still invokes the registered observer
synchronously with the unchanged status: the first trace event is that
invocation and it is the only callback invocation in the trace — this
holds whether or not the callback raises and for every pulse fault. -/
theorem C10_trigger_no_transition_still_notifies (cfg : PinConfig) (cbs : Callbacks)
    (s : ControllerState) (door_id : Nat) (duration : ℚ) (fault : PulseFault)
    (cb : Callback) (hd : door_id = 1 ∨ door_id = 2)
    (hcb : get_callback cbs door_id = some cb)
    (h1 : door_states s door_id ≠ DoorStatus.OPEN)
    (h2 : door_states s door_id ≠ DoorStatus.CLOSED) :
    (trigger_door cfg cbs s door_id duration fault).state = s ∧
    (trigger_door cfg cbs s door_id duration fault).events.head? =
      some (Event.callbackInvoked door_id (door_states s door_id)) ∧
    (trigger_door cfg cbs s door_id duration fault).events.countP is_callback_event = 1 := by
  have hopt := optimistic_state_frozen s door_id h1 h2
  cases hr : cb door_id (door_states s door_id) with
  | error u =>
      have hn : notify_step cbs door_id (door_states (optimistic_state s door_id) door_id) =
          ([Event.callbackInvoked door_id (door_states s door_id)], some Err.callbackError) := by
        rw [hopt]
        exact notify_step_raises cbs door_id (door_states s door_id) cb hcb hr
      rw [trigger_run_notify_err cfg cbs s door_id duration fault _ _ hd hn]
      exact ⟨hopt, rfl, rfl⟩
  | ok u =>
      have hn : notify_step cbs door_id (door_states (optimistic_state s door_id) door_id) =
          ([Event.callbackInvoked door_id (door_states s door_id)], none) := by
        rw [hopt]
        exact notify_step_ok cbs door_id (door_states s door_id) cb hcb hr
      rcases hp : relay_pulse fault (get_relay_pin cfg door_id) duration with ⟨pevs, op⟩
      have hpev : pevs.countP is_callback_event = 0 := by
        have := pulse_no_callback_events fault (get_relay_pin cfg door_id) duration
        rw [hp] at this
        exact this
      cases op with
      | some e =>
          rw [trigger_run_pulse cfg cbs s door_id duration fault _ pevs e hd hn hp]
          refine ⟨hopt, rfl, ?_⟩
          simp [List.countP_cons, List.countP_append, hpev, is_callback_event]
      | none =>
          rw [trigger_run_ok cfg cbs s door_id duration fault _ pevs hd hn hp]
          refine ⟨hopt, rfl, ?_⟩
          simp [List.countP_cons, List.countP_append, hpev, is_callback_event]

/-- Witness for C10: door 1 `UNKNOWN`, observer registered, fault-free run. -/
theorem C10_witness :
    (trigger_door defaultPins ⟨some cbOk, none⟩ ⟨DoorStatus.UNKNOWN, DoorStatus.CLOSED⟩ 1
        (1/2) PulseFault.ok).state = ⟨DoorStatus.UNKNOWN, DoorStatus.CLOSED⟩ ∧
    (trigger_door defaultPins ⟨some cbOk, none⟩ ⟨DoorStatus.UNKNOWN, DoorStatus.CLOSED⟩ 1
        (1/2) PulseFault.ok).events.head? =
      some (Event.callbackInvoked 1 DoorStatus.UNKNOWN) ∧
    (trigger_door defaultPins ⟨some cbOk, none⟩ ⟨DoorStatus.UNKNOWN, DoorStatus.CLOSED⟩ 1
        (1/2) PulseFault.ok).events.countP is_callback_event = 1 :=
  C10_trigger_no_transition_still_notifies defaultPins ⟨some cbOk, none⟩
    ⟨DoorStatus.UNKNOWN, DoorStatus.CLOSED⟩ 1 (1/2) PulseFault.ok cbOk (Or.inl rfl) rfl
    (by decide) (by decide)

lemma notify_step_events_cases (cbs : Callbacks) (d : Nat) (st : DoorStatus) :
    (notify_step cbs d st).1 = [] ∨
    (notify_step cbs d st).1 = [Event.callbackInvoked d st] := by
  rcases hc : get_callback cbs d with _ | cb
  · rw [notify_step_unregistered cbs d st hc]
    exact Or.inl rfl
  · cases hr : cb d st with
    | ok u => rw [notify_step_ok cbs d st cb hc hr]; exact Or.inr rfl
    | error u => rw [notify_step_raises cbs d st cb hc hr]; exact Or.inr rfl

lemma notify_step_registered_events (cbs : Callbacks) (d : Nat) (st : DoorStatus)
    (cb : Callback) (h : get_callback cbs d = some cb) :
    (notify_step cbs d st).1 = [Event.callbackInvoked d st] := by
  cases hr : cb d st with
  | ok u => rw [notify_step_ok cbs d st cb h hr]
  | error u => rw [notify_step_raises cbs d st cb h hr]

/-- C5: only transitions emit.  A second `_update_door_status` reading the
same raw value emits nothing, and (with an observer registered) an
`_update_door_status` call emits a notification exactly when the newly
computed status differs from the door's current status. -/
theorem C5_emit_iff_transition (cfg : PinConfig) (cbs : Callbacks) (pins : Nat → Bool)
    (s : ControllerState) (door_id : Nat) (cb : Callback)
    (hd : door_id = 1 ∨ door_id = 2) (hcb : get_callback cbs door_id = some cb) :
    (update_door_status cfg cbs pins
        (update_door_status cfg cbs pins s door_id).state door_id).events = [] ∧
    ((update_door_status cfg cbs pins s door_id).events ≠ [] ↔
       (if pins (get_sensor_pin cfg door_id) then DoorStatus.CLOSED else DoorStatus.OPEN) ≠
         door_states s door_id) := by
  constructor
  · have h : door_states (update_door_status cfg cbs pins s door_id).state door_id =
        (if pins (get_sensor_pin cfg door_id) then DoorStatus.CLOSED else DoorStatus.OPEN) := by
      rw [update_state_eq, door_states_set_same]
    rw [update_eq_unchanged cfg cbs pins _ door_id h]
  · by_cases hch : door_states s door_id =
        (if pins (get_sensor_pin cfg door_id) then DoorStatus.CLOSED else DoorStatus.OPEN)
    · rw [update_eq_unchanged cfg cbs pins s door_id hch]
      simp [hch.symm]
    · rw [update_eq_changed cfg cbs pins s door_id hch]
      have he := notify_step_registered_events cbs door_id
        (if pins (get_sensor_pin cfg door_id) then DoorStatus.CLOSED else DoorStatus.OPEN)
        cb hcb
      simp only [he]
      simp [Ne.symm hch]

/-- Witness for C5: door 1, sensor HIGH, status initially `UNKNOWN`. -/
theorem C5_witness :
    (update_door_status defaultPins ⟨some cbOk, none⟩ (fun _ => true)
        (update_door_status defaultPins ⟨some cbOk, none⟩ (fun _ => true)
          ⟨DoorStatus.UNKNOWN, DoorStatus.UNKNOWN⟩ 1).state 1).events = [] ∧
    ((update_door_status defaultPins ⟨some cbOk, none⟩ (fun _ => true)
        ⟨DoorStatus.UNKNOWN, DoorStatus.UNKNOWN⟩ 1).events ≠ [] ↔
      DoorStatus.CLOSED ≠ DoorStatus.UNKNOWN) :=
  C5_emit_iff_transition defaultPins ⟨some cbOk, none⟩ (fun _ => true)
    ⟨DoorStatus.UNKNOWN, DoorStatus.UNKNOWN⟩ 1 cbOk (Or.inl rfl) rfl

lemma trigger_invalid (cfg : PinConfig) (cbs : Callbacks) (s : ControllerState)
    (d : Nat) (duration : ℚ) (fault : PulseFault) (hd : ¬(d = 1 ∨ d = 2)) :
    trigger_door cfg cbs s d duration fault = ⟨s, [], some Err.valueError⟩ := by
  unfold trigger_door
  rw [if_pos hd]

lemma timers_of_append (l1 l2 : List Event) :
    timers_of (l1 ++ l2) = timers_of l1 ++ timers_of l2 := by
  simp [timers_of, List.filterMap_append]

lemma timers_of_notify (cbs : Callbacks) (d : Nat) (st : DoorStatus) :
    timers_of (notify_step cbs d st).1 = [] := by
  rcases notify_step_events_cases cbs d st with h | h <;> rw [h] <;> rfl

lemma timers_of_pulse (fault : PulseFault) (pin : Nat) (duration : ℚ) :
    timers_of (relay_pulse fault pin duration).1 = [] := by
  cases fault <;> rfl

/-- C8: whenever `trigger_door` completes without error it schedules exactly
one deferred re-poll (`threading.Timer(delay, self._update_door_status,
args=[door_id])`, modelled by the `timerScheduled` event carrying the same
`door_id`), as the last effect after the relay pulse, with a delay chosen
from the status the door had at entry: 15 s when it was `OPEN` (closing),
2 s otherwise (opening). -/
theorem C8_deferred_repoll_policy (cfg : PinConfig) (cbs : Callbacks)
    (s : ControllerState) (door_id : Nat) (duration : ℚ) (fault : PulseFault)
    (h : (trigger_door cfg cbs s door_id duration fault).err = none) :
    timers_of (trigger_door cfg cbs s door_id duration fault).events =
      [((if door_states s door_id = DoorStatus.OPEN then (15 : ℚ) else 2), door_id)] ∧
    (trigger_door cfg cbs s door_id duration fault).events.getLast? =
      some (Event.timerScheduled
        (if door_states s door_id = DoorStatus.OPEN then (15 : ℚ) else 2) door_id) := by
  by_cases hd : door_id = 1 ∨ door_id = 2
  case neg =>
    rw [trigger_invalid cfg cbs s door_id duration fault hd] at h
    simp at h
  case pos =>
    rcases hn : notify_step cbs door_id (door_states (optimistic_state s door_id) door_id)
      with ⟨evs, oe⟩
    cases oe with
    | some e =>
        rw [trigger_run_notify_err cfg cbs s door_id duration fault evs e hd hn] at h
        simp at h
    | none =>
        rcases hp : relay_pulse fault (get_relay_pin cfg door_id) duration with ⟨pevs, op⟩
        cases op with
        | some e =>
            rw [trigger_run_pulse cfg cbs s door_id duration fault evs pevs e hd hn hp] at h
            simp at h
        | none =>
            rw [trigger_run_ok cfg cbs s door_id duration fault evs pevs hd hn hp]
            have hte : timers_of evs = [] := by
              have h0 := timers_of_notify cbs door_id
                (door_states (optimistic_state s door_id) door_id)
              rw [hn] at h0
              exact h0
            have htp : timers_of pevs = [] := by
              have h0 := timers_of_pulse fault (get_relay_pin cfg door_id) duration
              rw [hp] at h0
              exact h0
            constructor
            · simp only [timers_of_append, hte, htp]
              rfl
            · show (List.getLast? _) = _
              repeat rw [List.getLast?_append_of_ne_nil _ (by simp)]
              rfl

/-- Witness for C8: door 1 `CLOSED` (so delay 2 s), no observer, fault-free. -/
theorem C8_witness :
    timers_of (trigger_door defaultPins ⟨none, none⟩ ⟨DoorStatus.CLOSED, DoorStatus.OPEN⟩ 1
        (1/2) PulseFault.ok).events = [((2 : ℚ), 1)] ∧
    (trigger_door defaultPins ⟨none, none⟩ ⟨DoorStatus.CLOSED, DoorStatus.OPEN⟩ 1
        (1/2) PulseFault.ok).events.getLast? = some (Event.timerScheduled 2 1) :=
  C8_deferred_repoll_policy defaultPins ⟨none, none⟩ ⟨DoorStatus.CLOSED, DoorStatus.OPEN⟩ 1
    (1/2) PulseFault.ok rfl

/-- `true` for every trace element except a callback invocation aimed at a
door other than `d`. -/
def callback_only_for (d : Nat) : Event → Bool
  | .callbackInvoked i _ => i == d
  | _ => true

lemma pulse_callback_only_for (d : Nat) (fault : PulseFault) (pin : Nat) (duration : ℚ) :
    (relay_pulse fault pin duration).1.all (callback_only_for d) = true := by
  cases fault <;> rfl

lemma notify_callback_only_for (cbs : Callbacks) (d : Nat) (st : DoorStatus) :
    (notify_step cbs d st).1.all (callback_only_for d) = true := by
  rcases notify_step_events_cases cbs d st with h | h <;> rw [h]
  · rfl
  · simp [callback_only_for]

lemma door_states_set_other (s : ControllerState) (d : Nat) (st : DoorStatus)
    (hd : d = 1 ∨ d = 2) :
    door_states (set_door_state s d st) (if d = 1 then 2 else 1) =
      door_states s (if d = 1 then 2 else 1) := by
  rcases hd with rfl | rfl <;> simp [door_states, set_door_state]

lemma optimistic_state_other (s : ControllerState) (d : Nat) (hd : d = 1 ∨ d = 2) :
    door_states (optimistic_state s d) (if d = 1 then 2 else 1) =
      door_states s (if d = 1 then 2 else 1) := by
  unfold optimistic_state
  split
  · exact door_states_set_other s d DoorStatus.OPENING hd
  · split
    · exact door_states_set_other s d DoorStatus.CLOSING hd
    · rfl

/-- C9: triggering one valid door never modifies the other door's stored
status and never invokes the other door's observer: every callback
invocation in the trace names the triggered door.  The pin configuration is
arbitrary, so this covers deployments where the two doors share one sensor
pin; it holds for every fault and callback outcome. -/
theorem C9_trigger_other_door_frame (cfg : PinConfig) (cbs : Callbacks)
    (s : ControllerState) (door_id : Nat) (duration : ℚ) (fault : PulseFault)
    (hd : door_id = 1 ∨ door_id = 2) :
    door_states (trigger_door cfg cbs s door_id duration fault).state
        (if door_id = 1 then 2 else 1) =
      door_states s (if door_id = 1 then 2 else 1) ∧
    (trigger_door cfg cbs s door_id duration fault).events.all
      (callback_only_for door_id) = true := by
  constructor
  · rw [trigger_state_eq cfg cbs s door_id duration fault hd]
    exact optimistic_state_other s door_id hd
  · rcases hn : notify_step cbs door_id (door_states (optimistic_state s door_id) door_id)
      with ⟨evs, oe⟩
    have hev : evs.all (callback_only_for door_id) = true := by
      have h0 := notify_callback_only_for cbs door_id
        (door_states (optimistic_state s door_id) door_id)
      rw [hn] at h0
      exact h0
    cases oe with
    | some e =>
        rw [trigger_run_notify_err cfg cbs s door_id duration fault evs e hd hn]
        exact hev
    | none =>
        rcases hp : relay_pulse fault (get_relay_pin cfg door_id) duration with ⟨pevs, op⟩
        have hpv : pevs.all (callback_only_for door_id) = true := by
          have h0 := pulse_callback_only_for door_id fault (get_relay_pin cfg door_id) duration
          rw [hp] at h0
          exact h0
        cases op with
        | some e =>
            rw [trigger_run_pulse cfg cbs s door_id duration fault evs pevs e hd hn hp]
            simp only [List.all_append, hev, hpv]
            rfl
        | none =>
            rw [trigger_run_ok cfg cbs s door_id duration fault evs pevs hd hn hp]
            simp only [List.all_append, hev, hpv]
            rfl

/-- Witness for C9: both doors share sensor pin 11, observers registered for
both doors, door 1 triggered from `CLOSED`; door 2 keeps its status and its
observer is not invoked. -/
theorem C9_witness :
    door_states (trigger_door ⟨9, 12, 11, 11⟩ ⟨some cbOk, some cbOk⟩
        ⟨DoorStatus.CLOSED, DoorStatus.OPEN⟩ 1 (1/2) PulseFault.ok).state 2 =
      DoorStatus.OPEN ∧
    (trigger_door ⟨9, 12, 11, 11⟩ ⟨some cbOk, some cbOk⟩
        ⟨DoorStatus.CLOSED, DoorStatus.OPEN⟩ 1 (1/2) PulseFault.ok).events.all
      (callback_only_for 1) = true :=
  C9_trigger_other_door_frame ⟨9, 12, 11, 11⟩ ⟨some cbOk, some cbOk⟩
    ⟨DoorStatus.CLOSED, DoorStatus.OPEN⟩ 1 (1/2) PulseFault.ok (Or.inl rfl)

/-- C3 as stated is false on the code: with an always-raising observer
registered for door 1, `_update_door_status` on a sensor transition (raw
HIGH, status `UNKNOWN`) and `trigger_door` on a `CLOSED` door both
terminate with the observer's exception instead of returning normally —
neither callback call site (lines 131-132, 155-156) guards the call. -/
theorem C3_counterexample :
    (update_door_status defaultPins ⟨some cbRaise, none⟩ (fun _ => true)
        ⟨DoorStatus.UNKNOWN, DoorStatus.UNKNOWN⟩ 1).err = some Err.callbackError ∧
    (trigger_door defaultPins ⟨some cbRaise, none⟩ ⟨DoorStatus.CLOSED, DoorStatus.UNKNOWN⟩ 1
        (1/2) PulseFault.ok).err = some Err.callbackError :=
  ⟨rfl, rfl⟩

/-- C3 amended: an exception raised by the registered observer propagates out
of both `_update_door_status` and `trigger_door` instead of being isolated.
The status store still happens before the callback runs, and in
`trigger_door` the exception aborts the call before any relay write: the
trace holds exactly the one callback invocation. -/
theorem C3_amended_observer_error_propagates (cfg : PinConfig) (cbs : Callbacks)
    (pins : Nat → Bool) (s : ControllerState) (door_id : Nat) (duration : ℚ)
    (fault : PulseFault) (cb : Callback) (hd : door_id = 1 ∨ door_id = 2)
    (hcb : get_callback cbs door_id = some cb)
    (hraise : ∀ i st, cb i st = Except.error ())
    (hchange : door_states s door_id ≠
      (if pins (get_sensor_pin cfg door_id) then DoorStatus.CLOSED else DoorStatus.OPEN)) :
    (update_door_status cfg cbs pins s door_id).err = some Err.callbackError ∧
    (update_door_status cfg cbs pins s door_id).state =
      set_door_state s door_id
        (if pins (get_sensor_pin cfg door_id) then DoorStatus.CLOSED else DoorStatus.OPEN) ∧
    (trigger_door cfg cbs s door_id duration fault).err = some Err.callbackError ∧
    (trigger_door cfg cbs s door_id duration fault).events =
      [Event.callbackInvoked door_id (door_states (optimistic_state s door_id) door_id)] := by
  refine ⟨?_, ?_, ?_, ?_⟩
  · rw [update_eq_changed cfg cbs pins s door_id hchange,
        notify_step_raises cbs door_id _ cb hcb (hraise door_id _)]
  · rw [update_state_eq]
  · rw [trigger_run_notify_err cfg cbs s door_id duration fault _ _ hd
        (notify_step_raises cbs door_id _ cb hcb (hraise door_id _))]
  · rw [trigger_run_notify_err cfg cbs s door_id duration fault _ _ hd
        (notify_step_raises cbs door_id _ cb hcb (hraise door_id _))]

/-- Witness for the amended C3: raising observer on door 1, sensor HIGH,
door `UNKNOWN`. -/
theorem C3_amended_witness :
    (update_door_status defaultPins ⟨some cbRaise, none⟩ (fun _ => true)
        ⟨DoorStatus.UNKNOWN, DoorStatus.UNKNOWN⟩ 1).err = some Err.callbackError ∧
    (update_door_status defaultPins ⟨some cbRaise, none⟩ (fun _ => true)
        ⟨DoorStatus.UNKNOWN, DoorStatus.UNKNOWN⟩ 1).state =
      ⟨DoorStatus.CLOSED, DoorStatus.UNKNOWN⟩ ∧
    (trigger_door defaultPins ⟨some cbRaise, none⟩ ⟨DoorStatus.UNKNOWN, DoorStatus.UNKNOWN⟩ 1
        (1/2) PulseFault.ok).err = some Err.callbackError ∧
    (trigger_door defaultPins ⟨some cbRaise, none⟩ ⟨DoorStatus.UNKNOWN, DoorStatus.UNKNOWN⟩ 1
        (1/2) PulseFault.ok).events = [Event.callbackInvoked 1 DoorStatus.UNKNOWN] :=
  C3_amended_observer_error_propagates defaultPins ⟨some cbRaise, none⟩ (fun _ => true)
    ⟨DoorStatus.UNKNOWN, DoorStatus.UNKNOWN⟩ 1 (1/2) PulseFault.ok cbRaise (Or.inl rfl) rfl
    (fun _ _ => rfl) (by decide)

lemma notify_no_pin_writes (cbs : Callbacks) (d : Nat) (st : DoorStatus) (pin : Nat) :
    (notify_step cbs d st).1.filterMap (relay_write_of pin) = [] := by
  rcases notify_step_events_cases cbs d st with h | h <;> rw [h] <;> rfl

/-- C4 as stated is false on the code: inject an error into the
`time.sleep(duration)` between the two relay writes (door 1, a fault-free
active-level write already performed).  `trigger_door` terminates with the
I/O error and the last level written to relay pin 9 is `false` (LOW =
active): the idle-level write was never attempted, the relay is left
engaged. -/
theorem C4_counterexample :
    (trigger_door defaultPins ⟨none, none⟩ ⟨DoorStatus.CLOSED, DoorStatus.UNKNOWN⟩ 1 (1/2)
        PulseFault.sleepStep).err = some Err.ioError ∧
    last_relay_level 9 (trigger_door defaultPins ⟨none, none⟩
        ⟨DoorStatus.CLOSED, DoorStatus.UNKNOWN⟩ 1 (1/2) PulseFault.sleepStep).events =
      some false :=
  ⟨rfl, by decide⟩

/-- C4 amended: `trigger_door` has no error-path recovery.  If an error is
raised between the active-level write and the idle-level write, the call
propagates the I/O error and the idle-level write is not attempted, so the
relay is left at the active (LOW) level; only the fault-free run returns
the relay to the idle (HIGH) level. -/
theorem C4_amended_pulse_error_leaves_relay_active (cfg : PinConfig) (cbs : Callbacks)
    (s : ControllerState) (door_id : Nat) (duration : ℚ)
    (hd : door_id = 1 ∨ door_id = 2)
    (hn2 : (notify_step cbs door_id (door_states (optimistic_state s door_id) door_id)).2 =
      none) :
    (trigger_door cfg cbs s door_id duration PulseFault.sleepStep).err = some Err.ioError ∧
    last_relay_level (get_relay_pin cfg door_id)
        (trigger_door cfg cbs s door_id duration PulseFault.sleepStep).events = some false ∧
    (trigger_door cfg cbs s door_id duration PulseFault.ok).err = none ∧
    last_relay_level (get_relay_pin cfg door_id)
        (trigger_door cfg cbs s door_id duration PulseFault.ok).events = some true := by
  rcases hn : notify_step cbs door_id (door_states (optimistic_state s door_id) door_id)
    with ⟨evs, oe⟩
  rw [hn] at hn2
  dsimp only at hn2
  subst hn2
  have hfm : evs.filterMap (relay_write_of (get_relay_pin cfg door_id)) = [] := by
    have h0 := notify_no_pin_writes cbs door_id
      (door_states (optimistic_state s door_id) door_id) (get_relay_pin cfg door_id)
    rw [hn] at h0
    exact h0
  refine ⟨?_, ?_, ?_, ?_⟩
  · rw [trigger_run_pulse cfg cbs s door_id duration PulseFault.sleepStep evs
      [Event.pinWrite (get_relay_pin cfg door_id) false] Err.ioError hd hn rfl]
  · rw [trigger_run_pulse cfg cbs s door_id duration PulseFault.sleepStep evs
      [Event.pinWrite (get_relay_pin cfg door_id) false] Err.ioError hd hn rfl]
    unfold last_relay_level
    rw [List.filterMap_append, hfm, List.nil_append]
    simp [relay_write_of]
  · rw [trigger_run_ok cfg cbs s door_id duration PulseFault.ok evs
      [Event.pinWrite (get_relay_pin cfg door_id) false, Event.sleepFor duration,
       Event.pinWrite (get_relay_pin cfg door_id) true] hd hn rfl]
  · rw [trigger_run_ok cfg cbs s door_id duration PulseFault.ok evs
      [Event.pinWrite (get_relay_pin cfg door_id) false, Event.sleepFor duration,
       Event.pinWrite (get_relay_pin cfg door_id) true] hd hn rfl]
    unfold last_relay_level
    simp only [List.filterMap_append, hfm, List.nil_append]
    simp [relay_write_of]

/-- Witness for the amended C4 at door 1 with no observer registered. -/
theorem C4_amended_witness :
    (trigger_door defaultPins ⟨none, none⟩ ⟨DoorStatus.OPEN, DoorStatus.UNKNOWN⟩ 1 (1/2)
        PulseFault.sleepStep).err = some Err.ioError ∧
    last_relay_level 9 (trigger_door defaultPins ⟨none, none⟩
        ⟨DoorStatus.OPEN, DoorStatus.UNKNOWN⟩ 1 (1/2) PulseFault.sleepStep).events =
      some false ∧
    (trigger_door defaultPins ⟨none, none⟩ ⟨DoorStatus.OPEN, DoorStatus.UNKNOWN⟩ 1 (1/2)
        PulseFault.ok).err = none ∧
    last_relay_level 9 (trigger_door defaultPins ⟨none, none⟩
        ⟨DoorStatus.OPEN, DoorStatus.UNKNOWN⟩ 1 (1/2) PulseFault.ok).events = some true :=
  C4_amended_pulse_error_leaves_relay_active defaultPins ⟨none, none⟩
    ⟨DoorStatus.OPEN, DoorStatus.UNKNOWN⟩ 1 (1/2) (Or.inl rfl) rfl
